import Mathlib

/-!
Verification of the PDF-translator core (`translator.py`) against its
specification.  Text is modelled as `List Char` (Python strings index by
code point, as `List Char` does).  The remote translation service and the
low-level cell renderer are modelled as explicit function parameters; every
request issued to the service is recorded in a log so that "how many
requests were made, in which order, with which payload" is observable.
-/

namespace PDFTranslator

/-- Characters treated as whitespace by Python's default `str.split()` /
`str.strip()` (the ASCII whitespace class). -/
def isPySpace (c : Char) : Bool :=
  c = ' ' || c = '\t' || c = '\n' || c = '\r' || c = '\x0b' || c = '\x0c'

/-- Model of `text.strip()`: drop leading and trailing whitespace. -/
def pyStrip (l : List Char) : List Char :=
  ((l.dropWhile isPySpace).reverse.dropWhile isPySpace).reverse

/-- Worker for `text.split()`: `acc` holds the current word reversed. -/
def pySplitAux : List Char → List Char → List (List Char)
  | [], acc => if acc.isEmpty then [] else [acc.reverse]
  | c :: rest, acc =>
    if isPySpace c then
      if acc.isEmpty then pySplitAux rest [] else acc.reverse :: pySplitAux rest []
    else
      pySplitAux rest (c :: acc)

/-- Model of `text.split()` (no separator argument): maximal runs of
non-whitespace characters, empties discarded. -/
def pySplit (l : List Char) : List (List Char) :=
  pySplitAux l []

/-- Model of `[text[i:i + n] for i in range(0, len(text), n)]`, fuel-indexed so the
definition is structurally recursive (the fuel is the list length, which
always suffices when `n ≥ 1`). -/
def sliceChunksF : Nat → Nat → List Char → List (List Char)
  | _, _, [] => []
  | 0, _, _ :: _ => []
  | fuel + 1, n, c :: rest => (c :: rest).take n :: sliceChunksF fuel n ((c :: rest).drop n)

/-- Character-offset slicing of `translator.py` line 52:
`chunks = [text[i:i + chunk_size] for i in range(0, len(text), chunk_size)]`. -/
def sliceChunks (n : Nat) (l : List Char) : List (List Char) :=
  sliceChunksF l.length n l

/-- Model of `' '.join(words)`. -/
def joinWords (ws : List (List Char)) : List Char :=
  List.intercalate [' '] ws

/-- The second, word-based pass of `translator.py` lines 54-56:
`for i in range(0, len(words), chunk_size): chunks.append(' '.join(words[i:i + chunk_size]))`,
fuel-indexed like `sliceChunksF`. -/
def wordChunksF : Nat → Nat → List (List Char) → List (List Char)
  | _, _, [] => []
  | 0, _, _ :: _ => []
  | fuel + 1, n, w :: rest =>
    joinWords ((w :: rest).take n) :: wordChunksF fuel n ((w :: rest).drop n)

/-- All word-based chunks appended by lines 54-56. -/
def wordChunks (n : Nat) (ws : List (List Char)) : List (List Char) :=
  wordChunksF ws.length n ws

/-- The chunk size hard-coded at `translator.py` line 51. -/
def chunk_size : Nat := 15000

/-- The complete chunk list built by `translate_text` (lines 50-56): the
character-offset slices followed by the appended word-based chunks. -/
def translate_text_chunks (text : List Char) : List (List Char) :=
  sliceChunks chunk_size text ++ wordChunks chunk_size (pySplit text)

/-- One request issued to the remote service: the 1-based chunk index
(embedded in the prompt as "part i of total") and the chunk text. -/
abbrev Request := Nat × List Char

/-- Equality of `Except` values is decidable when it is on both sides. -/
instance {ε α : Type} [DecidableEq ε] [DecidableEq α] : DecidableEq (Except ε α) := fun x y =>
  match x, y with
  | Except.error e, Except.error f =>
    if h : e = f then isTrue (by rw [h]) else isFalse (fun hh => h (by cases hh; rfl))
  | Except.ok a, Except.ok b =>
    if h : a = b then isTrue (by rw [h]) else isFalse (fun hh => h (by cases hh; rfl))
  | Except.error _, Except.ok _ => isFalse (fun hh => Except.noConfusion hh)
  | Except.ok _, Except.error _ => isFalse (fun hh => Except.noConfusion hh)

/-- The translation loop of lines 61-80: requests are issued strictly
sequentially in index order; a service failure (a raised exception in the
Python) aborts the loop and propagates.  Returns the log of issued requests
together with either the list of translated chunks or the propagated
service error. -/
def translateLoop {ε : Type} (svc : Nat → List Char → Except ε (List Char)) :
    Nat → List (List Char) → List Request × Except ε (List (List Char))
  | _, [] => ([], Except.ok [])
  | i, c :: cs =>
    match svc i c with
    | Except.error e => ([(i, c)], Except.error e)
    | Except.ok t =>
      let r := translateLoop svc (i + 1) cs
      ((i, c) :: r.1, r.2.map (fun ts => t :: ts))

/-- Model of `translate_text` (lines 45-89): chunk, translate each chunk in order,
join the translated chunks with a blank line (`'\n\n'.join`). -/
def translate_text {ε : Type} (text : List Char)
    (svc : Nat → List Char → Except ε (List Char)) :
    List Request × Except ε (List Char) :=
  let chunks := translate_text_chunks text
  let r := translateLoop svc 1 chunks
  (r.1, r.2.map (List.intercalate ['\n', '\n']))

/-- Model of `extract_text` (lines 28-43): concatenate the page texts, each followed
by a blank line, then strip the result. -/
def extract_text (pages : List (List Char)) : List Char :=
  pyStrip (pages.foldl (fun acc p => acc ++ p ++ ['\n', '\n']) [])

/-- One single-character `str.replace` call: `para.replace(pat, rep)` where
`pat` is one character. -/
def replaceChar (pat : Char) (rep : List Char) (l : List Char) : List Char :=
  l.flatMap (fun c => if c = pat then rep else [c])

/-- The chained replacements of `create_pdf` lines 111-117, in source
order: U+2018, U+2019, U+201C, U+201D → ASCII quotes, U+2014 → '-',
U+2026 → "...". -/
def cleanPara (l : List Char) : List Char :=
  replaceChar '…' ['.', '.', '.']
    (replaceChar '—' ['-']
      (replaceChar '”' ['"']
        (replaceChar '“' ['"']
          (replaceChar '’' ['\'']
            (replaceChar '‘' ['\''] l)))))

/-- Per-character substitution table: what the chained replacements do to a
single character.  Stated from the spec's description ("replace each such
character with its plain-ASCII substitute"); `cleanPara_eq_flatMap` proves
the code's chained `replace` calls agree with it. -/
def smartSubst (c : Char) : List Char :=
  if c = '‘' then ['\'']
  else if c = '’' then ['\'']
  else if c = '“' then ['"']
  else if c = '”' then ['"']
  else if c = '—' then ['-']
  else if c = '…' then ['.', '.', '.']
  else [c]

/-- The six "smart" punctuation characters normalized by the renderer. -/
def smartChars : List Char :=
  ['‘', '’', '“', '”', '—', '…']

/-- Model of `text.split('\n\n')` (line 100): split on every occurrence of the
two-character separator, left to right, keeping empty pieces.  `acc` holds
the current piece reversed. -/
def splitBlank : List Char → List Char → List (List Char)
  | acc, [] => [acc.reverse]
  | acc, '\n' :: '\n' :: rest => acc.reverse :: splitBlank [] rest
  | acc, c :: rest => splitBlank (c :: acc) rest

/-- Outcome of `create_pdf`: the counters it reports at lines 132-134 and,
for observability, the cleaned strings handed to `multi_cell` (all
attempts, in order) and those that rendered successfully. -/
structure RenderResult where
  added : Nat
  skipped : Nat
  attempts : List (List Char)
  written : List (List Char)
  deriving DecidableEq, Repr

/-- The paragraph loop of `create_pdf` lines 105-127: blank paragraphs are
passed over; each other paragraph is cleaned and handed to the cell
renderer `cell` (modelling `pdf.multi_cell`/`pdf.ln`, `true` = rendered);
a failure increments the skip counter and the loop continues. -/
def renderLoop (cell : List Char → Bool) : List (List Char) → RenderResult
  | [] => ⟨0, 0, [], []⟩
  | p :: ps =>
    if (pyStrip p).isEmpty then renderLoop cell ps
    else
      let cp := cleanPara p
      let r := renderLoop cell ps
      if cell cp then ⟨r.added + 1, r.skipped, cp :: r.attempts, cp :: r.written⟩
      else ⟨r.added, r.skipped + 1, cp :: r.attempts, r.written⟩

/-- Model of `create_pdf` (lines 91-134): split the translated text into paragraphs
on blank lines and render each one. -/
def create_pdf (text : List Char) (cell : List Char → Bool) : RenderResult :=
  renderLoop cell (splitBlank [] text)

/-- Errors a pipeline run can surface: the missing-credential check of
`__init__` line 21, the empty-extraction check of `translate_pdf` line 148,
or a propagated service failure from the translation loop. -/
inductive PipeError (ε : Type) where
  | missingCredential
  | emptyDocument
  | service (e : ε)
  deriving DecidableEq, Repr

/-- Python truthiness of an optional string (`None` and `''` are falsy). -/
def pyTruthy : Option (List Char) → Bool
  | none => false
  | some s => !s.isEmpty

/-- Model of `__init__` (lines 13-26): `self.api_key = api_key or os.getenv('OPENAI_API_KEY')`;
raise if the result is falsy, else the translator holds the key. -/
def init {ε : Type} (api_key envKey : Option (List Char)) :
    Except (PipeError ε) (List Char) :=
  let key := if pyTruthy api_key then api_key else envKey
  if pyTruthy key then Except.ok (key.getD []) else Except.error PipeError.missingCredential

/-- Model of `translate_pdf` (lines 136-161): extract, reject an empty document,
translate, render.  Returns the service-request log alongside the outcome
so that "no request was issued" is an observable fact; on success the
outcome carries the render report and the translated text it returns. -/
def translate_pdf {ε : Type} (pages : List (List Char))
    (svc : Nat → List Char → Except ε (List Char)) (cell : List Char → Bool) :
    List Request × Except (PipeError ε) (RenderResult × List Char) :=
  let text := extract_text pages
  if text.isEmpty then ([], Except.error PipeError.emptyDocument)
  else
    let r := translate_text text svc
    match r.2 with
    | Except.error e => (r.1, Except.error (PipeError.service e))
    | Except.ok tt => (r.1, Except.ok (create_pdf tt cell, tt))

/-- A whole run as the callers (`app.py`, `__main__`) perform it: construct
the translator first, then process the PDF; a construction failure means no
PDF processing happens at all. -/
def run {ε : Type} (api_key envKey : Option (List Char)) (pages : List (List Char))
    (svc : Nat → List Char → Except ε (List Char)) (cell : List Char → Bool) :
    List Request × Except (PipeError ε) (RenderResult × List Char) :=
  match init (ε := ε) api_key envKey with
  | Except.error _ => ([], Except.error PipeError.missingCredential)
  | Except.ok _ => translate_pdf pages svc cell

/-! ### General lemmas about the translation loop -/

/-- Closed form of the translation loop under a service that answers every
request: the log lists every chunk exactly once, paired with consecutive
indices from `start`, and the results come back in that same order. -/
theorem translateLoop_total {ε : Type} (f : Nat → List Char → List Char) :
    ∀ (cs : List (List Char)) (start : Nat),
      translateLoop (ε := ε) (fun i c => Except.ok (f i c)) start cs =
        (cs.mapIdx (fun j c => (start + j, c)),
         Except.ok (cs.mapIdx (fun j c => f (start + j) c)))
  | [], start => by simp [translateLoop]
  | c :: cs, start => by
    have ih := translateLoop_total (ε := ε) f cs (start + 1)
    have h1 : (fun j (x : List Char) => (start + 1 + j, x)) =
        (fun j (x : List Char) => (start + (j + 1), x)) := by
      funext j x
      simp [Prod.ext_iff]
      omega
    have h2 : (fun j (x : List Char) => f (start + 1 + j) x) =
        (fun j (x : List Char) => f (start + (j + 1)) x) := by
      funext j x
      congr 1
      omega
    simp [translateLoop, ih, List.mapIdx_cons, h1, h2, Except.map]

/-- When the first failing request is the one for `cs[j]`, the loop issues
exactly the requests for `cs[0] … cs[j]`, once each and in order, and
propagates the service's error value unchanged. -/
theorem translateLoop_failure {ε : Type} (svc : Nat → List Char → Except ε (List Char)) :
    ∀ (cs : List (List Char)) (start j : Nat) (e : ε),
      j < cs.length →
      (∀ m, m < j → ∃ t, svc (start + m) cs[m]! = Except.ok t) →
      svc (start + j) cs[j]! = Except.error e →
      translateLoop svc start cs =
        ((List.range (j + 1)).map (fun m => (start + m, cs[m]!)), Except.error e)
  | [], _, j, _, hj, _, _ => absurd hj (by simp)
  | c :: cs, start, 0, e, _, _, hfail => by
    simp only [List.getElem!_cons_zero, Nat.add_zero] at hfail
    simp [translateLoop, hfail, List.range_succ]
  | c :: cs, start, j + 1, e, hj, hok, hfail => by
    obtain ⟨t, ht⟩ := hok 0 (Nat.succ_pos j)
    simp only [List.getElem!_cons_zero, Nat.add_zero] at ht
    have hok' : ∀ m, m < j → ∃ t, svc (start + 1 + m) cs[m]! = Except.ok t := by
      intro m hm
      obtain ⟨u, hu⟩ := hok (m + 1) (by omega)
      refine ⟨u, ?_⟩
      have hadd : start + 1 + m = start + (m + 1) := by omega
      rw [hadd]
      simpa [List.getElem!_cons_succ] using hu
    have hfail' : svc (start + 1 + j) cs[j]! = Except.error e := by
      have hadd : start + 1 + j = start + (j + 1) := by omega
      rw [hadd]
      simpa [List.getElem!_cons_succ] using hfail
    have ih := translateLoop_failure svc cs (start + 1) j e
      (Nat.lt_of_succ_lt_succ (by simpa using hj)) hok' hfail'
    have hmap : List.map (fun m => (start + m, (c :: cs)[m]!)) (List.range (j + 1 + 1)) =
        (start, c) :: List.map (fun m => (start + 1 + m, cs[m]!)) (List.range (j + 1)) := by
      rw [List.range_succ_eq_map, List.map_cons, List.map_map]
      refine congrArg₂ _ (by simp) (List.map_congr_left ?_)
      intro m _
      simp [Function.comp, List.getElem!_cons_succ, Prod.ext_iff]
      omega
    simp [translateLoop, ht, ih, hmap, Except.map]

/-! ### Chunking on space-free texts -/

/-- On a text with no whitespace, `str.split()` returns the whole text as
the single word (worker version, for any accumulator). -/
theorem pySplitAux_no_space :
    ∀ (l acc : List Char), (∀ c ∈ l, isPySpace c = false) →
      pySplitAux l acc = if (acc ++ l).isEmpty then [] else [acc.reverse ++ l]
  | [], acc, _ => by simp [pySplitAux]
  | c :: rest, acc, h => by
    have hc : isPySpace c = false := h c (List.mem_cons_self c rest)
    have ih := pySplitAux_no_space rest (c :: acc) (fun x hx => h x (List.mem_cons_of_mem c hx))
    simp only [pySplitAux, hc, Bool.false_eq_true, if_false, ih]
    simp

/-- On a nonempty text with no whitespace, `str.split()` returns the whole
text as the single word. -/
theorem pySplit_no_space (l : List Char) (hne : l ≠ [])
    (h : ∀ c ∈ l, isPySpace c = false) : pySplit l = [l] := by
  rw [pySplit, pySplitAux_no_space l [] h]
  simp [hne]

/-- One step of the slicing comprehension on a replicated text. -/
theorem sliceChunksF_replicate_step (fuel n k : Nat) (a : Char) (hk : k ≠ 0) :
    sliceChunksF (fuel + 1) n (List.replicate k a) =
      List.replicate (min n k) a :: sliceChunksF fuel n (List.replicate (k - n) a) := by
  obtain ⟨m, rfl⟩ := Nat.exists_eq_succ_of_ne_zero hk
  rw [List.replicate_succ]
  rw [sliceChunksF]
  rw [← List.replicate_succ, List.take_replicate, List.drop_replicate]

/-- The slicing comprehension produces nothing from an empty text. -/
theorem sliceChunksF_nil (fuel n : Nat) : sliceChunksF fuel n [] = [] := by
  cases fuel <;> rfl

/-- The text `'a' * 15001` is sliced into a 15000-character window and a
1-character remainder. -/
theorem sliceChunks_replicate_15001 :
    sliceChunks chunk_size (List.replicate 15001 'a') =
      [List.replicate 15000 'a', List.replicate 1 'a'] := by
  rw [sliceChunks, List.length_replicate, chunk_size]
  show sliceChunksF (15000 + 1) 15000 (List.replicate 15001 'a') = _
  rw [sliceChunksF_replicate_step 15000 15000 15001 'a' (by norm_num)]
  rw [show min 15000 15001 = 15000 from by norm_num, show 15001 - 15000 = 1 from by norm_num]
  show _ :: sliceChunksF (14999 + 1) 15000 (List.replicate 1 'a') = _
  rw [sliceChunksF_replicate_step 14999 15000 1 'a' (by norm_num)]
  rw [show min 15000 1 = 1 from by norm_num, show (1 : Nat) - 15000 = 0 from by norm_num]
  rw [List.replicate_zero, sliceChunksF_nil]

/-- The text `'a' * 32000` is sliced into windows of 15000, 15000 and 2000
characters. -/
theorem sliceChunks_replicate_32000 :
    sliceChunks chunk_size (List.replicate 32000 'a') =
      [List.replicate 15000 'a', List.replicate 15000 'a', List.replicate 2000 'a'] := by
  rw [sliceChunks, List.length_replicate, chunk_size]
  show sliceChunksF (31999 + 1) 15000 (List.replicate 32000 'a') = _
  rw [sliceChunksF_replicate_step 31999 15000 32000 'a' (by norm_num)]
  rw [show min 15000 32000 = 15000 from by norm_num, show 32000 - 15000 = 17000 from by norm_num]
  show _ :: sliceChunksF (31998 + 1) 15000 (List.replicate 17000 'a') = _
  rw [sliceChunksF_replicate_step 31998 15000 17000 'a' (by norm_num)]
  rw [show min 15000 17000 = 15000 from by norm_num, show 17000 - 15000 = 2000 from by norm_num]
  show _ :: _ :: sliceChunksF (31997 + 1) 15000 (List.replicate 2000 'a') = _
  rw [sliceChunksF_replicate_step 31997 15000 2000 'a' (by norm_num)]
  rw [show min 15000 2000 = 2000 from by norm_num, show 2000 - 15000 = 0 from by norm_num]
  rw [List.replicate_zero, sliceChunksF_nil]

/-- The word-based pass on a single word returns that word unchanged. -/
theorem wordChunks_singleton (n : Nat) (w : List Char) (hn : n ≠ 0) :
    wordChunks n [w] = [w] := by
  obtain ⟨m, rfl⟩ := Nat.exists_eq_succ_of_ne_zero hn
  rw [wordChunks]
  show wordChunksF (0 + 1) (m + 1) [w] = [w]
  rw [wordChunksF]
  simp [joinWords, List.intercalate, wordChunksF]

/-- The full chunk list the code builds for `'a' * 15001`: the two
character-offset slices followed by the appended word-based chunk, which
repeats the whole 15001-character text. -/
theorem translate_text_chunks_replicate_15001 :
    translate_text_chunks (List.replicate 15001 'a') =
      [List.replicate 15000 'a', List.replicate 1 'a', List.replicate 15001 'a'] := by
  rw [translate_text_chunks, sliceChunks_replicate_15001,
    pySplit_no_space _ (List.length_pos.mp (by rw [List.length_replicate]; norm_num))
      (by intro c hc; rw [List.eq_of_mem_replicate hc]; rfl),
    wordChunks_singleton _ _ (by rw [chunk_size]; norm_num)]
  rfl

/-- The full chunk list the code builds for `'a' * 32000`: the three
character-offset slices followed by the appended word-based chunk, which
repeats the whole 32000-character text. -/
theorem translate_text_chunks_replicate_32000 :
    translate_text_chunks (List.replicate 32000 'a') =
      [List.replicate 15000 'a', List.replicate 15000 'a', List.replicate 2000 'a',
        List.replicate 32000 'a'] := by
  rw [translate_text_chunks, sliceChunks_replicate_32000,
    pySplit_no_space _ (List.length_pos.mp (by rw [List.length_replicate]; norm_num))
      (by intro c hc; rw [List.eq_of_mem_replicate hc]; rfl),
    wordChunks_singleton _ _ (by rw [chunk_size]; norm_num)]
  rfl

/-! ### Renderer lemmas -/

/-- The chained single-character `replace` calls act pointwise: they agree
with the per-character substitution table (no replacement output ever
matches a later pattern). -/
theorem cleanPara_eq_flatMap (l : List Char) : cleanPara l = l.flatMap smartSubst := by
  induction l with
  | nil => rfl
  | cons c cs ih =>
    simp only [List.flatMap_cons, ← ih]
    simp only [cleanPara, replaceChar, List.flatMap_cons]
    by_cases h1 : c = '‘'
    · subst h1; rfl
    by_cases h2 : c = '’'
    · subst h2; rfl
    by_cases h3 : c = '“'
    · subst h3; rfl
    by_cases h4 : c = '”'
    · subst h4; rfl
    by_cases h5 : c = '—'
    · subst h5; rfl
    by_cases h6 : c = '…'
    · subst h6; rfl
    simp [smartSubst, h1, h2, h3, h4, h5, h6]

/-- No character produced by the substitution table is one of the six
smart-punctuation characters. -/
theorem smartSubst_not_smart (c c' : Char) (h : c' ∈ smartSubst c) : c' ∉ smartChars := by
  by_cases h1 : c = '‘'
  · subst h1; simp [smartSubst] at h; subst h; decide
  by_cases h2 : c = '’'
  · subst h2; simp [smartSubst, h1] at h; subst h; decide
  by_cases h3 : c = '“'
  · subst h3; simp [smartSubst, h1, h2] at h; subst h; decide
  by_cases h4 : c = '”'
  · subst h4; simp [smartSubst, h1, h2, h3] at h; subst h; decide
  by_cases h5 : c = '—'
  · subst h5; simp [smartSubst, h1, h2, h3, h4] at h; subst h; decide
  by_cases h6 : c = '…'
  · subst h6; simp [smartSubst, h1, h2, h3, h4, h5] at h
    subst h; decide
  simp [smartSubst, h1, h2, h3, h4, h5, h6] at h
  subst h
  simp [smartChars]
  exact ⟨h1, h2, h3, h4, h5, h6⟩

/-- Closed form of the render loop: the nonblank paragraphs are cleaned and
attempted in order; the successes are written and counted, the failures are
counted as skipped, and processing reaches every paragraph. -/
theorem renderLoop_spec (cell : List Char → Bool) :
    ∀ ps : List (List Char),
      renderLoop cell ps =
        { added := (((ps.filter (fun p => !(pyStrip p).isEmpty)).map cleanPara).filter cell).length,
          skipped := (((ps.filter (fun p => !(pyStrip p).isEmpty)).map cleanPara).filter
            (fun q => !cell q)).length,
          attempts := (ps.filter (fun p => !(pyStrip p).isEmpty)).map cleanPara,
          written := ((ps.filter (fun p => !(pyStrip p).isEmpty)).map cleanPara).filter cell }
  | [] => rfl
  | p :: ps => by
    have ih := renderLoop_spec cell ps
    by_cases hb : (pyStrip p).isEmpty
    · simp [renderLoop, hb, ih, List.filter_cons]
    · by_cases hc : cell (cleanPara p)
      · simp [renderLoop, hb, ih, List.filter_cons, hc]
      · simp [renderLoop, hb, ih, List.filter_cons, hc]

/-- Splitting a list by a boolean predicate: the matches and the
non-matches together account for every element. -/
theorem length_filter_add_length_filter_not (q : List Char → Bool) :
    ∀ l : List (List Char), (l.filter q).length + (l.filter (fun x => !q x)).length = l.length
  | [] => rfl
  | x :: l => by
    have ih := length_filter_add_length_filter_not q l
    by_cases hx : q x <;> simp [List.filter_cons, hx] <;> omega

/-- Closed form of `translate_text` under a service that answers every
request: requests carry consecutive 1-based indices in chunk production
order, and the output joins the responses in that same order with the
two-character blank-line separator. -/
theorem translate_text_total_form {ε : Type} (text : List Char)
    (f : Nat → List Char → List Char) :
    translate_text text (fun i c => (Except.ok (f i c) : Except ε (List Char))) =
      ((translate_text_chunks text).mapIdx (fun j c => (1 + j, c)),
       Except.ok (List.intercalate ['\n', '\n']
         ((translate_text_chunks text).mapIdx (fun j c => f (1 + j) c)))) := by
  have h := translateLoop_total (ε := ε) f (translate_text_chunks text) 1
  simp only [translate_text]
  rw [h]
  simp [Except.map]

/-- The request log of `translate_text` under an always-successful
service: one request per produced chunk, indices `1, 2, …` in order. -/
theorem translate_text_total_log {ε : Type} (text : List Char)
    (f : Nat → List Char → List Char) :
    (translate_text text (fun i c => (Except.ok (f i c) : Except ε (List Char)))).1 =
      (translate_text_chunks text).mapIdx (fun j c => (1 + j, c)) := by
  rw [translate_text_total_form]

/-! ### Claim theorems -/

/-- C1: the claimed round-trip law fails on the code.  For the two-character
text "ab" the chunk list actually produced by `translate_text` is
`["ab", "ab"]` — the character-offset slice followed by the appended
word-based chunk — so concatenating the chunks in production order yields
"abab", not the original text. -/
theorem chunk_concat_duplicates_text :
    (translate_text_chunks ['a', 'b']).flatten = ['a', 'b', 'a', 'b'] ∧
    (translate_text_chunks ['a', 'b']).flatten ≠ ['a', 'b'] := by
  decide

/-- C2: the 15000-character budget is violated.  For the 15001-character
text `'a' * 15001` the code produces the two character-offset slices of
lengths 15000 and 1 and then appends a third, word-joined chunk of length
15001 > 15000, which the translation loop also submits. -/
theorem chunk_budget_exceeded :
    translate_text_chunks (List.replicate 15001 'a') =
      [List.replicate 15000 'a', List.replicate 1 'a', List.replicate 15001 'a'] ∧
    (translate_text_chunks (List.replicate 15001 'a')).map List.length = [15000, 1, 15001] := by
  refine ⟨translate_text_chunks_replicate_15001, ?_⟩
  rw [translate_text_chunks_replicate_15001]
  simp only [List.map_cons, List.map_nil, List.length_replicate]

/-- C3: the 32000-character scenario does not produce 3 chunks.  The code
slices `'a' * 32000` into windows of 15000, 15000 and 2000 characters but
then appends a fourth, word-joined chunk of length 32000, and a run with an
always-successful service issues 4 requests, not 3. -/
theorem scenario_32000_four_chunks :
    (translate_text_chunks (List.replicate 32000 'a')).map List.length =
      [15000, 15000, 2000, 32000] ∧
    (translate_text (List.replicate 32000 'a')
      (fun _ c => (Except.ok c : Except Unit (List Char)))).1.length = 4 := by
  constructor
  · rw [translate_text_chunks_replicate_32000]
    simp only [List.map_cons, List.map_nil, List.length_replicate]
  · rw [translate_text_total_log (ε := Unit) (List.replicate 32000 'a') (fun _ c => c)]
    rw [List.length_mapIdx, translate_text_chunks_replicate_32000]
    rfl

/-- C4: for any text and any (total) service behaviour, `translate_text`
issues the requests for the produced chunks with consecutive 1-based
indices in production order, and returns the translated chunks joined in
that same index order with exactly one blank line (`"\n\n"`) between
consecutive chunks — the service's responses cannot reorder anything. -/
theorem reassembly_preserves_order {ε : Type} (text : List Char)
    (f : Nat → List Char → List Char) :
    translate_text text (fun i c => (Except.ok (f i c) : Except ε (List Char))) =
      ((translate_text_chunks text).mapIdx (fun j c => (1 + j, c)),
       Except.ok (List.intercalate ['\n', '\n']
         ((translate_text_chunks text).mapIdx (fun j c => f (1 + j) c)))) :=
  translate_text_total_form text f

/-- C5: when extraction yields no text after trimming, the pipeline fails
with the empty-document error, zero translation requests are issued (the
request log is empty) and no render result is produced. -/
theorem empty_extraction_aborts {ε : Type} (pages : List (List Char))
    (svc : Nat → List Char → Except ε (List Char)) (cell : List Char → Bool)
    (h : extract_text pages = []) :
    translate_pdf pages svc cell = ([], Except.error PipeError.emptyDocument) := by
  simp [translate_pdf, h]

/-- Witness for C5: a one-page document whose page text is empty. -/
theorem empty_extraction_aborts_witness :
    extract_text [[]] = [] ∧
    translate_pdf [[]] (fun _ c => (Except.ok c : Except Nat (List Char))) (fun _ => true) =
      ([], Except.error PipeError.emptyDocument) :=
  ⟨by decide, empty_extraction_aborts [[]]
    (fun _ c => (Except.ok c : Except Nat (List Char))) (fun _ => true) (by decide)⟩

/-- C6 counterexample: the propagated error does not identify the failing
chunk index.  On the text "ab" (whose chunk list is `["ab", "ab"]`), a
service failing on the first request and a service failing on the second
request propagate the *same* error value (the request logs show that
different chunks failed), so the error cannot identify which chunk failed. -/
theorem error_lacks_chunk_index :
    (translate_text ['a', 'b'] (fun _ _ => (Except.error 7 : Except Nat (List Char)))).1 =
      [(1, ['a', 'b'])] ∧
    (translate_text ['a', 'b']
      (fun i c => if i = 1 then Except.ok c else (Except.error 7 : Except Nat (List Char)))).1 =
      [(1, ['a', 'b']), (2, ['a', 'b'])] ∧
    (translate_text ['a', 'b'] (fun _ _ => (Except.error 7 : Except Nat (List Char)))).2 =
      (translate_text ['a', 'b']
        (fun i c => if i = 1 then Except.ok c else (Except.error 7 : Except Nat (List Char)))).2 ∧
    (translate_text ['a', 'b'] (fun _ _ => (Except.error 7 : Except Nat (List Char)))).2 =
      Except.error 7 := by
  decide

/-- C6 amended: if the request for chunk `j` is the first to fail, the
whole operation fails with the service's error value propagated unchanged
(no chunk index is attached), each of chunks `0 … j` was requested exactly
once in order with nothing after the failure (no retry), and no partial
translated output is produced. -/
theorem failure_propagates_without_retry {ε : Type} (text : List Char)
    (svc : Nat → List Char → Except ε (List Char)) (j : Nat) (e : ε)
    (hj : j < (translate_text_chunks text).length)
    (hok : ∀ m, m < j → ∃ t, svc (1 + m) (translate_text_chunks text)[m]! = Except.ok t)
    (hfail : svc (1 + j) (translate_text_chunks text)[j]! = Except.error e) :
    translate_text text svc =
      ((List.range (j + 1)).map (fun m => (1 + m, (translate_text_chunks text)[m]!)),
       Except.error e) := by
  have h := translateLoop_failure svc (translate_text_chunks text) 1 j e hj hok hfail
  simp only [translate_text]
  rw [h]
  simp [Except.map]

/-- Witness for the amended C6: a service that fails on the very first
request. -/
theorem failure_propagates_without_retry_witness :
    0 < (translate_text_chunks ['a']).length ∧
    translate_text ['a'] (fun _ _ => (Except.error 5 : Except Nat (List Char))) =
      ([(1, ['a'])], Except.error 5) := by
  refine ⟨by decide, ?_⟩
  have h := failure_propagates_without_retry ['a']
    (fun _ _ => (Except.error 5 : Except Nat (List Char))) 0 5 (by decide)
    (fun m hm => absurd hm (Nat.not_lt_zero m)) rfl
  exact h.trans (by decide)

/-- C7: with no credential supplied as a parameter and none in the
environment (absent or empty, both falsy in the code's check), constructing
the translator fails with the missing-credential error, and a whole run
started that way issues no request and produces no output of any stage. -/
theorem missing_credential_fails_first {ε : Type} (api_key envKey : Option (List Char))
    (pages : List (List Char)) (svc : Nat → List Char → Except ε (List Char))
    (cell : List Char → Bool) (h1 : pyTruthy api_key = false) (h2 : pyTruthy envKey = false) :
    init (ε := ε) api_key envKey = Except.error PipeError.missingCredential ∧
    run api_key envKey pages svc cell = ([], Except.error PipeError.missingCredential) := by
  have hinit : init (ε := ε) api_key envKey = Except.error PipeError.missingCredential := by
    simp [init, h1, h2]
  exact ⟨hinit, by simp [run, hinit]⟩

/-- Witness for C7: no key parameter and an empty environment variable. -/
theorem missing_credential_fails_first_witness :
    pyTruthy (none : Option (List Char)) = false ∧ pyTruthy (some []) = false ∧
    init (ε := Nat) none (some []) = Except.error PipeError.missingCredential ∧
    run none (some []) [['a']] (fun _ c => (Except.ok c : Except Nat (List Char)))
      (fun _ => true) = ([], Except.error PipeError.missingCredential) := by
  have h := missing_credential_fails_first (ε := Nat) none (some []) [['a']]
    (fun _ c => Except.ok c) (fun _ => true) (by decide) (by decide)
  exact ⟨by decide, by decide, h.1, h.2⟩

/-- C8: every string the renderer hands to the cell writer is some
paragraph of the translated text with each smart-punctuation character
replaced pointwise by its plain-ASCII substitute, and it contains none of
the six smart-punctuation characters (so no error can arise from such a
character; the rendering of the cleaned paragraph is attempted normally). -/
theorem renderer_normalizes_smart_punctuation (text : List Char) (cell : List Char → Bool)
    (s : List Char) (hs : s ∈ (create_pdf text cell).attempts) :
    (∃ p ∈ splitBlank [] text, s = p.flatMap smartSubst) ∧ ∀ c ∈ s, c ∉ smartChars := by
  have hs' : s ∈ ((splitBlank [] text).filter (fun p => !(pyStrip p).isEmpty)).map cleanPara := by
    rw [create_pdf, renderLoop_spec] at hs
    exact hs
  obtain ⟨p, hp, rfl⟩ := List.mem_map.mp hs'
  refine ⟨⟨p, List.mem_of_mem_filter hp, cleanPara_eq_flatMap p⟩, ?_⟩
  rw [cleanPara_eq_flatMap]
  intro c hc
  obtain ⟨x, _, hcx⟩ := List.mem_flatMap.mp hc
  exact smartSubst_not_smart x c hcx

/-- Witness for C8: a paragraph containing an em-dash is rendered as its
cleaned form with the em-dash replaced by a hyphen. -/
theorem renderer_normalizes_smart_punctuation_witness :
    (['a', '-', 'b'] ∈ (create_pdf ['a', '—', 'b'] (fun _ => true)).attempts) ∧
    ((∃ p ∈ splitBlank [] ['a', '—', 'b'], ['a', '-', 'b'] = p.flatMap smartSubst) ∧
      ∀ c ∈ ['a', '-', 'b'], c ∉ smartChars) :=
  ⟨by decide, renderer_normalizes_smart_punctuation ['a', '—', 'b'] (fun _ => true)
    ['a', '-', 'b'] (by decide)⟩

/-- C9: rendering is total and per-paragraph failures are non-fatal: every
nonblank paragraph is attempted in order even after a failure, the failing
paragraphs are left out of the written output and counted as skipped, the
successes are counted as added, and the two reported counters together
account for every nonblank paragraph. -/
theorem render_failures_skipped_and_reported (text : List Char) (cell : List Char → Bool) :
    (create_pdf text cell).attempts =
      ((splitBlank [] text).filter (fun p => !(pyStrip p).isEmpty)).map cleanPara ∧
    (create_pdf text cell).written =
      (((splitBlank [] text).filter (fun p => !(pyStrip p).isEmpty)).map cleanPara).filter cell ∧
    (create_pdf text cell).added =
      ((((splitBlank [] text).filter (fun p => !(pyStrip p).isEmpty)).map cleanPara).filter
        cell).length ∧
    (create_pdf text cell).skipped =
      ((((splitBlank [] text).filter (fun p => !(pyStrip p).isEmpty)).map cleanPara).filter
        (fun q => !cell q)).length ∧
    (create_pdf text cell).added + (create_pdf text cell).skipped =
      ((splitBlank [] text).filter (fun p => !(pyStrip p).isEmpty)).length := by
  rw [create_pdf, renderLoop_spec]
  refine ⟨rfl, rfl, rfl, rfl, ?_⟩
  have h := length_filter_add_length_filter_not cell
    (((splitBlank [] text).filter (fun p => !(pyStrip p).isEmpty)).map cleanPara)
  simpa [List.length_map] using h

/-- C10: on the empty input text the chunk list is empty, the translation
loop never runs (the request log is empty — zero requests are issued), and
the returned translation is the empty string. -/
theorem empty_input_zero_requests {ε : Type}
    (svc : Nat → List Char → Except ε (List Char)) :
    translate_text [] svc = ([], Except.ok []) := rfl

end PDFTranslator
